import Mathlib

/-!
Shallow embedding of the ShareJS session-coordination server (`src/index.js`).

The server keeps two process-wide JavaScript objects,
`docs : docId -> userId -> presence record` and `locked : docId -> true`,
a list of connected websocket clients, and per-connection handlers:

* `wss.broadcast(docId, message)` iterates all clients and `send`s the
  message to each client whose attached `userMeta.docId` equals `docId`,
  swallowing send errors (`src/index.js` lines 117-129);
* `client.on('message')` first drops/answers messages when the client's
  document is locked, then JSON-parses, then either runs the registration
  branch or pushes the parsed record to the engine stream (lines 148-202);
* `client.on('close')` releases presence and broadcasts the new snapshot
  (lines 205-232);
* `stream._write` serializes records from the engine and sends them while
  the connection state is not 'closed' (lines 135-144).

JavaScript objects with string keys are embedded as association lists
(`JObj`); assignment replaces the first binding or appends, `delete`
removes the first binding, mirroring unique-key objects.
-/

/-- Association-list embedding of a JavaScript object with string keys. -/
abbrev JObj (α : Type) := List (String × α)

/-- Key lookup, `obj[k]` (`undefined` becomes `none`). -/
def alookup {α : Type} : JObj α → String → Option α
  | [], _ => none
  | (k', v) :: t, k => if k' = k then some v else alookup t k

/-- Key assignment, `obj[k] = v`. -/
def aset {α : Type} : JObj α → String → α → JObj α
  | [], k, v => [(k, v)]
  | (k', v') :: t, k, v => if k' = k then (k, v) :: t else (k', v') :: aset t k v

/-- Key deletion, `delete obj[k]`. -/
def aerase {α : Type} : JObj α → String → JObj α
  | [], _ => []
  | (k', v') :: t, k => if k' = k then t else (k', v') :: aerase t k

/-- Per-user presence record (`docs[docId][userId]`, `src/index.js`
lines 174-179): display metadata plus a live connection count.  The count
is a JavaScript number mutated by `++` and `--`; it is embedded as `Int`
so that "never negative" is a theorem, not a typing artifact. -/
structure PresenceRecord where
  name : String
  url : String
  count : Int
  gravatar : String
deriving DecidableEq, Repr

/-- A parsed JSON client message.  The registration marker and the fields
read by the registration branch are explicit; any other content of a
non-registration message is abstracted by `payload`. -/
structure JMsg where
  registration : Bool
  docId : String
  userId : String
  userName : String
  userUrl : String
  userGravatar : String
  payload : String
deriving DecidableEq, Repr

/-- The presence registry: `docs` maps a document id to its user map. -/
abbrev Registry := JObj (JObj PresenceRecord)

/-- Two-level lookup `docs[docId][userId]`. -/
def lookup2 (docs : Registry) (docId userId : String) : Option PresenceRecord :=
  (alookup docs docId).bind (fun m => alookup m userId)

/-- Registration bookkeeping (`src/index.js` lines 169-183): create the
document map if absent, then create the user record with count 1 or
increment the existing count. -/
def registerP (docs : Registry) (j : JMsg) : Registry :=
  let m := (alookup docs j.docId).getD []
  let m' :=
    match alookup m j.userId with
    | none => aset m j.userId
        { name := j.userName, url := j.userUrl, count := 1, gravatar := j.userGravatar }
    | some r => aset m j.userId { r with count := r.count + 1 }
  aset docs j.docId m'

/-- Release bookkeeping from the close handler (`src/index.js` lines
212-225): if the record exists, decrement its count; delete the record
when the count reaches exactly 0, and delete the document entry when its
user map becomes empty. -/
def releaseP (docs : Registry) (docId userId : String) : Registry :=
  match alookup docs docId with
  | none => docs
  | some m =>
    match alookup m userId with
    | none => docs
    | some r =>
      let r' : PresenceRecord := { r with count := r.count - 1 }
      if r'.count = 0 then
        let m' := aerase m userId
        if m'.isEmpty then aerase docs docId
        else aset docs docId m'
      else aset docs docId (aset m userId r')

/-! ### Claim C1 infrastructure: sequences of register/release events
on one fixed `(docId, userId)` pair. -/

/-- One presence event on a fixed `(docId, userId)` pair: a registration
message or a close of a registered session. -/
inductive PEvent where
  | reg : PEvent
  | rel : PEvent
deriving DecidableEq, Repr

/-- Number of registrations in an event list. -/
def nReg : List PEvent → Nat
  | [] => 0
  | PEvent.reg :: t => nReg t + 1
  | PEvent.rel :: t => nReg t

/-- Number of releases in an event list. -/
def nRel : List PEvent → Nat
  | [] => 0
  | PEvent.reg :: t => nRel t
  | PEvent.rel :: t => nRel t + 1

/-- Effect of one event on the registry, all events carrying the same
registration metadata `j`. -/
def stepEvent (j : JMsg) (docs : Registry) : PEvent → Registry
  | PEvent.reg => registerP docs j
  | PEvent.rel => releaseP docs j.docId j.userId

/-- Run a sequence of register/release events from a starting registry. -/
def runEvents (j : JMsg) (docs : Registry) (evs : List PEvent) : Registry :=
  evs.foldl (stepEvent j) docs

/-- The registry reachable from empty by events on one pair: empty for
count 0, otherwise a single document entry with a single user record. -/
def mkCount (j : JMsg) (k : Nat) : Registry :=
  if k = 0 then []
  else [(j.docId, [(j.userId,
    { name := j.userName, url := j.userUrl, count := (k : Int), gravatar := j.userGravatar })])]

/-- Concrete registration metadata used by witnesses. -/
def jA : JMsg :=
  { registration := true, docId := "d1", userId := "u1", userName := "Ann",
    userUrl := "https://a", userGravatar := "g1", payload := "" }

/-- Concrete event sequence: two registrations then one release. -/
def evsW : List PEvent := [PEvent.reg, PEvent.reg, PEvent.rel]

/-! ### Server state: clients, lock registry, message/close handlers. -/

/-- A raw inbound websocket payload: either JSON-parseable (yielding a
`JMsg`) or not. -/
inductive RawMsg where
  | malformed : RawMsg
  | json : JMsg → RawMsg
deriving DecidableEq, Repr

/-- A message sent to a client over the websocket (already serialized in
the source; the JSON text is represented structurally).  `lock` is
`{type: 'lock'}`; `meta users` is `{type: 'meta', users: docs[docId]}`,
where `users` is `none` when `docs[docId]` is `undefined`. -/
inductive OutMsg where
  | lock : OutMsg
  | meta : Option (JObj PresenceRecord) → OutMsg
deriving DecidableEq, Repr

/-- One connected websocket client together with its adapter stream.
`userMeta` is the registration message attached by the registration
branch (absent until then); `sendOk` models whether `client.send`
currently succeeds or throws; `outbox` records successfully sent
messages; `pushed` records the parsed messages pushed to the engine
stream; `eosCount` counts `stream.push(null)` end-of-stream signals. -/
structure Client where
  userMeta : Option JMsg
  sendOk : Bool
  outbox : List OutMsg
  pushed : List JMsg
  eosCount : Nat
deriving DecidableEq, Repr

/-- Whole-server state: the `docs` presence registry, the `locked` flag
object, and the list of connected clients (`wss.clients`). -/
structure ServerState where
  docs : Registry
  locked : JObj Bool
  clients : List Client
deriving DecidableEq, Repr

/-- Truthiness of `locked[docId]` (the source only ever stores `true`
and deletes the key on unlock). -/
def isLocked (s : ServerState) (docId : String) : Bool :=
  (alookup s.locked docId).getD false

/-- The broadcast guard `client.userMeta && client.userMeta.docId === docId`. -/
def matchesDoc (docId : String) (c : Client) : Bool :=
  match c.userMeta with
  | some jm => jm.docId == docId
  | none => false

/-- `try { client.send(message) } catch (e) { /* ignored */ }`: the
message reaches the outbox only when sending succeeds; a failure is
swallowed and changes nothing. -/
def trySend (c : Client) (msg : OutMsg) : Client :=
  if c.sendOk then { c with outbox := c.outbox ++ [msg] } else c

/-- Per-client body of `wss.broadcast` (`src/index.js` lines 118-126). -/
def deliver (docId : String) (msg : OutMsg) (c : Client) : Client :=
  if matchesDoc docId c then trySend c msg else c

/-- `wss.broadcast(docId, message)` applied to the client list: each
client is processed independently (`async.each`). -/
def broadcastClients (docId : String) (msg : OutMsg) (cs : List Client) : List Client :=
  cs.map (deliver docId msg)

/-- `wss.broadcast` on the whole server state: only client outboxes can
change. -/
def broadcastS (s : ServerState) (docId : String) (msg : OutMsg) : ServerState :=
  { s with clients := broadcastClients docId msg s.clients }

/-- Replace the client at an index by a function of its current value
(mutation of one `client` object in the source). -/
def modifyAt (f : Client → Client) : List Client → Nat → List Client
  | [], _ => []
  | c :: t, 0 => f c :: t
  | c :: t, n + 1 => c :: modifyAt f t n

/-- Result of one run of the `message` handler.  `threw st` embeds the
fact that the handler raised an uncaught exception with the server state
at `st` when it escaped: the `catch` block of the JSON parse calls
`client.captureMessage('...', {message: message})` where `message` is an
unbound identifier (and `captureMessage` is not a websocket-client
method), so a non-parseable payload raises a `ReferenceError` out of the
handler instead of logging (`src/index.js` lines 155-160). -/
inductive HandlerResult where
  | ok : ServerState → HandlerResult
  | threw : ServerState → HandlerResult
deriving DecidableEq, Repr

/-- The server state carried by a handler result. -/
def resState : HandlerResult → ServerState
  | HandlerResult.ok s => s
  | HandlerResult.threw s => s

/-- Whether the handler returned normally. -/
def isOk : HandlerResult → Bool
  | HandlerResult.ok _ => true
  | HandlerResult.threw _ => false

/-- The part of the `message` handler after a successful `JSON.parse`
(`src/index.js` lines 163-202): the registration branch creates/updates
the presence record, attaches `userMeta` to the client, broadcasts the
updated `{type:'meta', users: docs[docId]}` snapshot to the document,
and finally sends a direct lock notice to this client alone when the
document is locked; any other message is pushed to the engine stream. -/
def handleParsed (s : ServerState) (cid : Nat) (j : JMsg) : ServerState :=
  if j.registration then
    let docs1 := registerP s.docs j
    let s1 : ServerState :=
      { s with docs := docs1,
               clients := modifyAt (fun c0 => { c0 with userMeta := some j }) s.clients cid }
    let s2 := broadcastS s1 j.docId (OutMsg.meta (alookup docs1 j.docId))
    if isLocked s2 j.docId then
      { s2 with clients := modifyAt (fun c0 => trySend c0 OutMsg.lock) s2.clients cid }
    else s2
  else
    { s with clients := modifyAt (fun c0 => { c0 with pushed := c0.pushed ++ [j] }) s.clients cid }

/-- `JSON.parse(data)` plus its catch block: a malformed payload raises
(see `HandlerResult.threw`) with the state untouched. -/
def handleParse (s : ServerState) (cid : Nat) (raw : RawMsg) : HandlerResult :=
  match raw with
  | RawMsg.malformed => HandlerResult.threw s
  | RawMsg.json j => HandlerResult.ok (handleParsed s cid j)

/-- The full `client.on('message')` handler (`src/index.js` lines
148-202) for the client at index `cid`: if the client has registered and
its document is locked, broadcast `{type:'lock'}` to the document and
return without parsing or forwarding; otherwise parse and dispatch. -/
def handleMessage (s : ServerState) (cid : Nat) (raw : RawMsg) : HandlerResult :=
  match s.clients[cid]? with
  | none => HandlerResult.ok s
  | some c =>
    match c.userMeta with
    | some jm =>
      if isLocked s jm.docId then
        HandlerResult.ok (broadcastS s jm.docId OutMsg.lock)
      else handleParse s cid raw
    | none => handleParse s cid raw

/-- The `client.on('close')` handler (`src/index.js` lines 205-232): if
the client had registered, release its presence record and broadcast the
resulting `{type:'meta', users: docs[docId]}` snapshot (where `users`
may be `undefined`); in all cases signal end-of-stream once.  The
handler does not detach `userMeta`. -/
def handleClose (s : ServerState) (cid : Nat) : ServerState :=
  match s.clients[cid]? with
  | none => s
  | some c =>
    let s1 :=
      match c.userMeta with
      | some jm =>
        let docs1 := releaseP s.docs jm.docId jm.userId
        broadcastS { s with docs := docs1 } jm.docId (OutMsg.meta (alookup docs1 jm.docId))
      | none => s
    { s1 with clients := modifyAt (fun c0 => { c0 with eosCount := c0.eosCount + 1 }) s1.clients cid }

/-- Result of one `stream._write(chunk, encoding, callback)` call
(`src/index.js` lines 135-144): `sentPayload` is the record handed to
`client.send` (serialization is structural), `none` when the guard or
the send suppressed it; `callbackInvoked` records that `callback()` runs
on every path. -/
structure WriteResult where
  sentPayload : Option String
  callbackInvoked : Bool
deriving DecidableEq, Repr

/-- `stream._write`: send the serialized chunk unless the raw
connection's `state` is 'closed'; a send failure (`sendOk = false`) is
swallowed; the callback is always invoked. -/
def stream_write (connState : String) (sendOk : Bool) (chunk : String) : WriteResult :=
  if connState ≠ "closed" then
    if sendOk then { sentPayload := some chunk, callbackInvoked := true }
    else { sentPayload := none, callbackInvoked := true }
  else { sentPayload := none, callbackInvoked := true }

/-- Registration metadata attaching a session to document "d". -/
def jregD : JMsg :=
  { registration := true, docId := "d", userId := "u1", userName := "Ann",
    userUrl := "https://a", userGravatar := "g1", payload := "" }

/-- A non-registration (edit) message. -/
def jNR : JMsg :=
  { registration := false, docId := "", userId := "", userName := "",
    userUrl := "", userGravatar := "", payload := "op1" }

/-- Presence record for user "u1" on "d" with count 1. -/
def recA : PresenceRecord :=
  { name := "Ann", url := "https://a", count := 1, gravatar := "g1" }

/-- A registered client attached to document "d" whose sends succeed. -/
def cReg : Client :=
  { userMeta := some jregD, sendOk := true, outbox := [], pushed := [], eosCount := 0 }

/-- State with one registered client on "d" and "d" locked. -/
def sL : ServerState :=
  { docs := [("d", [("u1", recA)])], locked := [("d", true)], clients := [cReg] }

/-- State with one registered client on "d" and nothing locked. -/
def sU : ServerState :=
  { docs := [("d", [("u1", recA)])], locked := [], clients := [cReg] }

/-- Registration metadata attaching a session to document "e". -/
def jregE : JMsg :=
  { registration := true, docId := "e", userId := "u2", userName := "Bob",
    userUrl := "https://b", userGravatar := "g2", payload := "" }

/-- A registered client attached to document "e". -/
def cRegE : Client :=
  { userMeta := some jregE, sendOk := true, outbox := [], pushed := [], eosCount := 0 }

/-- A connected client that never registered. -/
def cAnon : Client :=
  { userMeta := none, sendOk := true, outbox := [], pushed := [], eosCount := 0 }

/-- Mixed state: a client on "d", a client on "e", an unregistered
client; the presence registry is empty, so delivery is decided by the
attached metadata alone. -/
def s3 : ServerState :=
  { docs := [], locked := [], clients := [cReg, cRegE, cAnon] }

/-- A registered client attached to "d" whose sends currently fail. -/
def cFail : Client :=
  { userMeta := some jregD, sendOk := false, outbox := [], pushed := [], eosCount := 0 }

/-- State with a failing client listed before a healthy one on "d". -/
def s7 : ServerState :=
  { docs := [("d", [("u1", recA)])], locked := [], clients := [cFail, cReg] }

/-- State with one never-registered client and nonempty registries. -/
def s9 : ServerState :=
  { docs := [("d", [("u1", recA)])], locked := [("d", true)], clients := [cAnon] }

/-- Concrete state for C5: document "d" locked, one connecting (not yet
registered) client. -/
def s5 : ServerState :=
  { docs := [], locked := [("d", true)], clients := [cAnon] }

/-- Registration metadata for user "u0" on document "d". -/
def jreg0 : JMsg :=
  { registration := true, docId := "d", userId := "u0", userName := "Udo",
    userUrl := "https://u0", userGravatar := "g0", payload := "" }

/-- Presence record for user "u0" with count 1. -/
def rec0 : PresenceRecord :=
  { name := "Udo", url := "https://u0", count := 1, gravatar := "g0" }

/-- A registered client for user "u0" on document "d". -/
def cReg0 : Client :=
  { userMeta := some jreg0, sendOk := true, outbox := [], pushed := [], eosCount := 0 }

/-- Two registered clients of distinct users on document "d". -/
def s6 : ServerState :=
  { docs := [("d", [("u0", rec0), ("u1", recA)])], locked := [], clients := [cReg0, cReg] }

/-- The concrete state of `s6` after one close of the first session. -/
def s6once : ServerState := handleClose s6 0

/-- State for C4: one registered client on the unlocked document "d". -/
def s4 : ServerState :=
  { docs := [("d", [("u1", recA)])], locked := [], clients := [cReg] }

theorem alookup_aset_self {α : Type} (l : JObj α) (k : String) (v : α) :
    alookup (aset l k v) k = some v := by
  induction l with
  | nil => simp [aset, alookup]
  | cons hd t ih =>
    obtain ⟨k', v'⟩ := hd
    by_cases h : k' = k
    · simp [aset, alookup, h]
    · simp [aset, alookup, h, ih]

theorem alookup_aset_ne {α : Type} (l : JObj α) (k k' : String) (v : α)
    (h : k' ≠ k) : alookup (aset l k v) k' = alookup l k' := by
  induction l with
  | nil => simp [aset, alookup, Ne.symm h]
  | cons hd t ih =>
    obtain ⟨k0, v0⟩ := hd
    by_cases h0 : k0 = k
    · subst h0
      simp [aset, alookup, Ne.symm h]
    · by_cases h1 : k0 = k'
      · simp [aset, alookup, h0, h1, h]
      · simp [aset, alookup, h0, h1, ih]

theorem alookup_aerase_ne {α : Type} (l : JObj α) (k k' : String)
    (h : k' ≠ k) : alookup (aerase l k) k' = alookup l k' := by
  induction l with
  | nil => simp [aerase]
  | cons hd t ih =>
    obtain ⟨k0, v0⟩ := hd
    by_cases h0 : k0 = k
    · subst h0
      simp [aerase, alookup, Ne.symm h]
    · by_cases h1 : k0 = k'
      · simp [aerase, alookup, h0, h1, h]
      · simp [aerase, alookup, h0, h1, ih]

theorem alookup_releaseP_ne (docs : Registry) (docId userId d : String)
    (h : d ≠ docId) : alookup (releaseP docs docId userId) d = alookup docs d := by
  unfold releaseP
  split
  · rfl
  · split
    · rfl
    · rename_i x1 m hd x2 r hu
      by_cases hz : r.count - 1 = (0 : Int)
      · by_cases he : (aerase m userId).isEmpty
        · simp [hz, he, alookup_aerase_ne docs docId d h]
        · simp [hz, he, alookup_aset_ne docs docId d (aerase m userId) h]
      · simp [hz, alookup_aset_ne, h]

theorem alookup_registerP_ne (docs : Registry) (j : JMsg) (d : String)
    (h : d ≠ j.docId) : alookup (registerP docs j) d = alookup docs d := by
  unfold registerP
  cases hd : alookup docs j.docId <;>
    cases hu : alookup ((alookup docs j.docId).getD []) j.userId <;>
      simp [alookup_aset_ne docs j.docId d _ h]

theorem releaseP_absent (docs : Registry) (docId userId : String)
    (h : lookup2 docs docId userId = none) :
    releaseP docs docId userId = docs := by
  unfold releaseP
  split
  · rfl
  · split
    · rfl
    · rename_i x1 m hd x2 r hu
      exfalso
      unfold lookup2 at h
      rw [hd] at h
      simp [hu] at h

theorem registerP_mkCount (j : JMsg) (k : Nat) :
    registerP (mkCount j k) j = mkCount j (k + 1) := by
  cases k with
  | zero => simp [mkCount, registerP, alookup, aset]
  | succ k' =>
    simp [mkCount, registerP, alookup, aset]

theorem releaseP_mkCount (j : JMsg) (k : Nat) :
    releaseP (mkCount j (k + 1)) j.docId j.userId = mkCount j k := by
  cases k with
  | zero =>
    simp [mkCount, releaseP, alookup, aerase, List.isEmpty]
  | succ k' =>
    simp [mkCount, releaseP, alookup, aset]
    intro hz
    exfalso
    omega

theorem runEvents_mkCount (j : JMsg) (evs : List PEvent) :
    ∀ k : Nat, (∀ n, nRel (evs.take n) ≤ k + nReg (evs.take n)) →
      runEvents j (mkCount j k) evs = mkCount j (k + nReg evs - nRel evs) := by
  induction evs with
  | nil => intro k _; simp [runEvents, nReg, nRel]
  | cons e t ih =>
    intro k h
    cases e with
    | reg =>
      have h' : ∀ n, nRel (t.take n) ≤ (k + 1) + nReg (t.take n) := by
        intro n
        have := h (n + 1)
        simp [List.take, nReg, nRel] at this
        omega
      have step : runEvents j (mkCount j k) (PEvent.reg :: t)
          = runEvents j (mkCount j (k + 1)) t := by
        simp [runEvents, stepEvent, registerP_mkCount]
      rw [step, ih (k + 1) h']
      have : k + 1 + nReg t - nRel t = k + nReg (PEvent.reg :: t) - nRel (PEvent.reg :: t) := by
        have := h' t.length
        simp [List.take_of_length_le (Nat.le_refl t.length)] at this
        simp [nReg, nRel]
        omega
      rw [this]
    | rel =>
      have hk : 1 ≤ k := by
        have := h 1
        simp [List.take, nReg, nRel] at this
        omega
      obtain ⟨k', rfl⟩ : ∃ k', k = k' + 1 := ⟨k - 1, by omega⟩
      have h' : ∀ n, nRel (t.take n) ≤ k' + nReg (t.take n) := by
        intro n
        have := h (n + 1)
        simp [List.take, nReg, nRel] at this
        omega
      have step : runEvents j (mkCount j (k' + 1)) (PEvent.rel :: t)
          = runEvents j (mkCount j k') t := by
        simp [runEvents, stepEvent, releaseP_mkCount]
      rw [step, ih k' h']
      have : k' + nReg t - nRel t
          = k' + 1 + nReg (PEvent.rel :: t) - nRel (PEvent.rel :: t) := by
        simp [nReg, nRel]
        omega
      rw [this]

theorem runEvents_empty (j : JMsg) (evs : List PEvent)
    (h : ∀ n, nRel (evs.take n) ≤ nReg (evs.take n)) :
    runEvents j [] evs = mkCount j (nReg evs - nRel evs) := by
  have h0 := runEvents_mkCount j evs 0 (by simpa using h)
  have hz : mkCount j 0 = [] := by simp [mkCount]
  rw [hz] at h0
  simpa using h0

theorem alookup_mkCount_zero (j : JMsg) : alookup (mkCount j 0) j.docId = none := by
  simp [mkCount, alookup]

theorem alookup_mkCount_succ (j : JMsg) (k : Nat) :
    alookup (mkCount j (k + 1)) j.docId =
      some [(j.userId,
        { name := j.userName, url := j.userUrl, count := ((k + 1 : Nat) : Int),
          gravatar := j.userGravatar })] := by
  simp [mkCount, alookup]

theorem lookup2_mkCount_zero (j : JMsg) :
    lookup2 (mkCount j 0) j.docId j.userId = none := by
  simp [mkCount, lookup2, alookup]

theorem lookup2_mkCount_succ (j : JMsg) (k : Nat) :
    lookup2 (mkCount j (k + 1)) j.docId j.userId =
      some { name := j.userName, url := j.userUrl, count := ((k + 1 : Nat) : Int),
             gravatar := j.userGravatar } := by
  simp [mkCount, lookup2, alookup]

/-- Claim C1: for every sequence of register/release events on one
`(docId, userId)` pair (with releases only of previously registered
sessions), the presence count equals registers minus releases and is
never negative, the user record is absent iff the count is 0, the
document entry is absent iff the count is 0 (no empty-map leaks), and a
present document entry always holds some user with count at least 1. -/
theorem c1_presence_counts (j : JMsg) (evs : List PEvent)
    (h : ∀ n, nRel (List.take n evs) ≤ nReg (List.take n evs)) :
    (alookup (runEvents j [] evs) j.docId = none ↔ nReg evs = nRel evs)
  ∧ (lookup2 (runEvents j [] evs) j.docId j.userId = none ↔ nReg evs = nRel evs)
  ∧ (∀ r, lookup2 (runEvents j [] evs) j.docId j.userId = some r →
        r.count = (nReg evs : Int) - (nRel evs : Int) ∧ 1 ≤ r.count)
  ∧ (∀ m, alookup (runEvents j [] evs) j.docId = some m →
        ∃ u r, alookup m u = some r ∧ 1 ≤ r.count)
  ∧ (∀ n r, lookup2 (runEvents j [] (List.take n evs)) j.docId j.userId = some r →
        1 ≤ r.count) := by
  have hb : nRel evs ≤ nReg evs := by
    have := h evs.length
    simpa [List.take_of_length_le (Nat.le_refl evs.length)] using this
  have hrun := runEvents_empty j evs h
  refine ⟨?_, ?_, ?_, ?_, ?_⟩
  · rw [hrun]
    cases hK : nReg evs - nRel evs with
    | zero => rw [alookup_mkCount_zero]; simp; omega
    | succ k => rw [alookup_mkCount_succ]; simp; omega
  · rw [hrun]
    cases hK : nReg evs - nRel evs with
    | zero => rw [lookup2_mkCount_zero]; simp; omega
    | succ k => rw [lookup2_mkCount_succ]; simp; omega
  · rw [hrun]
    cases hK : nReg evs - nRel evs with
    | zero =>
      intro r hr
      rw [lookup2_mkCount_zero] at hr
      simp at hr
    | succ k =>
      intro r hr
      rw [lookup2_mkCount_succ] at hr
      obtain rfl := Option.some.inj hr
      constructor
      · try dsimp
        push_cast
        omega
      · try dsimp
        push_cast
        omega
  · rw [hrun]
    cases hK : nReg evs - nRel evs with
    | zero =>
      intro m hm
      rw [alookup_mkCount_zero] at hm
      simp at hm
    | succ k =>
      intro m hm
      rw [alookup_mkCount_succ] at hm
      obtain rfl := Option.some.inj hm
      refine ⟨j.userId,
        { name := j.userName, url := j.userUrl, count := ((k + 1 : Nat) : Int),
          gravatar := j.userGravatar }, ?_, ?_⟩
      · simp [alookup]
      · try dsimp
        push_cast
        omega
  · intro n r hr
    have hpre : ∀ m, nRel ((evs.take n).take m) ≤ nReg ((evs.take n).take m) := by
      intro m
      rw [List.take_take]
      exact h (min m n)
    have hrn := runEvents_empty j (evs.take n) hpre
    rw [hrn] at hr
    cases hK : nReg (evs.take n) - nRel (evs.take n) with
    | zero =>
      rw [hK, lookup2_mkCount_zero] at hr
      simp at hr
    | succ k =>
      rw [hK, lookup2_mkCount_succ] at hr
      obtain rfl := Option.some.inj hr
      try dsimp
      push_cast
      omega

/-- Witness for C1 at the concrete sequence register, register, release. -/
theorem c1_presence_counts_witness :
    (lookup2 (runEvents jA [] evsW) jA.docId jA.userId = none ↔ nReg evsW = nRel evsW)
    ∧ nReg evsW = 2 ∧ nRel evsW = 1 := by
  have h : ∀ n, nRel (List.take n evsW) ≤ nReg (List.take n evsW) := by
    intro n
    match n with
    | 0 => decide
    | 1 => decide
    | 2 => decide
    | (m + 3) =>
      rw [List.take_of_length_le (by simp only [evsW, List.length_cons, List.length_nil]; omega)]
      decide
  exact ⟨(c1_presence_counts jA evsW h).2.1, by decide, by decide⟩

theorem modifyAt_getElem? (f : Client → Client) (cs : List Client) (i n : Nat) :
    (modifyAt f cs i)[n]? = if n = i then (cs[n]?).map f else cs[n]? := by
  induction cs generalizing i n with
  | nil => cases i <;> cases n <;> simp [modifyAt]
  | cons c t ih =>
    cases i with
    | zero => cases n <;> simp [modifyAt]
    | succ i' =>
      cases n with
      | zero => simp [modifyAt]
      | succ n' => simp [modifyAt, ih]

theorem modifyAt_length (f : Client → Client) (cs : List Client) (i : Nat) :
    (modifyAt f cs i).length = cs.length := by
  induction cs generalizing i with
  | nil => cases i <;> simp [modifyAt]
  | cons c t ih => cases i <;> simp [modifyAt, ih]

theorem deliver_char (d : String) (msg : OutMsg) (c : Client) :
    deliver d msg c =
      if matchesDoc d c && c.sendOk then { c with outbox := c.outbox ++ [msg] } else c := by
  cases hm : matchesDoc d c <;> cases hs : c.sendOk <;>
    simp [deliver, trySend, hm, hs]

theorem broadcastClients_getElem? (d : String) (msg : OutMsg) (cs : List Client) (n : Nat) :
    (broadcastClients d msg cs)[n]? = (cs[n]?).map (deliver d msg) := by
  simp [broadcastClients, List.getElem?_map]

/-- Claim C2: while a registered session's document is locked, an inbound
non-registration message is never pushed to the engine stream and
instead `{type:'lock'}` is broadcast to every session attached to the
document (delivered where sending succeeds); while unlocked, the parsed
message is forwarded verbatim to this session's engine stream and
nothing else changes. -/
theorem c2_lock_gating (s : ServerState) (cid : Nat) (c : Client) (jm j : JMsg)
    (hc : s.clients[cid]? = some c) (hm : c.userMeta = some jm)
    (hj : j.registration = false) :
    (isLocked s jm.docId = true →
      handleMessage s cid (RawMsg.json j) = HandlerResult.ok
        { s with clients := s.clients.map (fun ci =>
            if matchesDoc jm.docId ci && ci.sendOk
            then { ci with outbox := ci.outbox ++ [OutMsg.lock] } else ci) })
  ∧ (isLocked s jm.docId = false →
      handleMessage s cid (RawMsg.json j) = HandlerResult.ok
        { s with clients :=
            modifyAt (fun ci => { ci with pushed := ci.pushed ++ [j] }) s.clients cid }) := by
  constructor
  · intro hlk
    unfold handleMessage
    simp only [hc, hm, hlk]
    have hfun : deliver jm.docId OutMsg.lock = (fun ci =>
        if matchesDoc jm.docId ci && ci.sendOk
        then { ci with outbox := ci.outbox ++ [OutMsg.lock] } else ci) :=
      funext (fun c0 => deliver_char jm.docId OutMsg.lock c0)
    simp [broadcastS, broadcastClients, hfun]
  · intro hlk
    unfold handleMessage
    simp only [hc, hm, hlk]
    simp [handleParse, handleParsed, hj]

/-- Witness for C2: on the locked state the edit message only produces a
lock-notice broadcast; on the unlocked state it is pushed verbatim to
the engine stream. -/
theorem c2_lock_gating_witness :
    handleMessage sL 0 (RawMsg.json jNR) = HandlerResult.ok
      { sL with clients := [{ cReg with outbox := [OutMsg.lock] }] }
    ∧ handleMessage sU 0 (RawMsg.json jNR) = HandlerResult.ok
      { sU with clients := [{ cReg with pushed := [jNR] }] } := by
  constructor
  · have h := (c2_lock_gating sL 0 cReg jregD jNR rfl rfl rfl).1 (by decide)
    rw [h]
    decide
  · have h := (c2_lock_gating sU 0 cReg jregD jNR rfl rfl rfl).2 (by decide)
    rw [h]
    decide

theorem broadcastClients_all_ok (d : String) (m : OutMsg) (cs : List Client)
    (hok : ∀ c ∈ cs, c.sendOk = true) :
    broadcastClients d m cs = cs.map (fun c =>
      if matchesDoc d c then { c with outbox := c.outbox ++ [m] } else c) := by
  induction cs with
  | nil => rfl
  | cons c t ih =>
    have hc := hok c (List.mem_cons_self c t)
    have ht : ∀ c' ∈ t, c'.sendOk = true := fun c' hc' => hok c' (List.mem_cons_of_mem c hc')
    show deliver d m c :: broadcastClients d m t = _
    rw [List.map_cons, ih ht, deliver_char, hc]
    simp

/-- Claim C3: a broadcast delivers the message to exactly the clients
whose attached metadata names the target document at call time (when
sends succeed), independently of the presence registry; clients attached
to other documents or not yet registered receive nothing, and the
registries are untouched. -/
theorem c3_broadcast_exact (s : ServerState) (d : String) (m : OutMsg) :
    ((∀ c ∈ s.clients, c.sendOk = true) →
      (broadcastS s d m).clients = s.clients.map (fun c =>
        if matchesDoc d c then { c with outbox := c.outbox ++ [m] } else c))
  ∧ (∀ (i : Nat) (ci : Client), s.clients[i]? = some ci → matchesDoc d ci = false →
      (broadcastS s d m).clients[i]? = some ci)
  ∧ (broadcastS s d m).docs = s.docs
  ∧ (broadcastS s d m).locked = s.locked := by
  refine ⟨?_, ?_, rfl, rfl⟩
  · intro hok
    exact broadcastClients_all_ok d m s.clients hok
  · intro i ci hci hmatch
    show (broadcastClients d m s.clients)[i]? = some ci
    rw [broadcastClients_getElem?, hci]
    simp [deliver, hmatch]

/-- Witness for C3: broadcasting to "d" reaches only the client attached
to "d", even though the presence registry is empty. -/
theorem c3_broadcast_exact_witness :
    (broadcastS s3 "d" (OutMsg.meta none)).clients.map Client.outbox
      = [[OutMsg.meta none], [], []] := by
  have h := (c3_broadcast_exact s3 "d" (OutMsg.meta none)).1 (by decide)
  rw [h]
  decide

/-- Claim C7: broadcast is independently best-effort per session: the
result at each index depends only on that client (a failing or closed
client cannot affect any other), the registries are never modified, no
error is raised (the function is total), and a broadcast with no
clients is a no-op. -/
theorem c7_broadcast_best_effort (s : ServerState) (d : String) (m : OutMsg) :
    (broadcastS s d m).docs = s.docs
  ∧ (broadcastS s d m).locked = s.locked
  ∧ (broadcastS s d m).clients.length = s.clients.length
  ∧ (∀ (i : Nat) (ci : Client), s.clients[i]? = some ci →
      (broadcastS s d m).clients[i]? =
        some (if matchesDoc d ci && ci.sendOk
              then { ci with outbox := ci.outbox ++ [m] } else ci))
  ∧ (s.clients = [] → broadcastS s d m = s) := by
  refine ⟨rfl, rfl, ?_, ?_, ?_⟩
  · show (broadcastClients d m s.clients).length = _
    simp [broadcastClients]
  · intro i ci hci
    show (broadcastClients d m s.clients)[i]? = _
    rw [broadcastClients_getElem?, hci]
    simp [deliver_char]
  · intro hnil
    have hb : broadcastClients d m s.clients = s.clients := by
      rw [hnil]
      rfl
    show ({ s with clients := broadcastClients d m s.clients } : ServerState) = s
    rw [hb]

/-- Witness for C7: the first client's send failure does not stop
delivery to the second client, and the registries survive unchanged. -/
theorem c7_broadcast_best_effort_witness :
    (broadcastS s7 "d" OutMsg.lock).clients[1]? = some { cReg with outbox := [OutMsg.lock] }
    ∧ (broadcastS s7 "d" OutMsg.lock).clients[0]? = some cFail
    ∧ (broadcastS s7 "d" OutMsg.lock).docs = s7.docs := by
  refine ⟨?_, ?_, (c7_broadcast_best_effort s7 "d" OutMsg.lock).1⟩
  · have h := (c7_broadcast_best_effort s7 "d" OutMsg.lock).2.2.2.1 1 cReg rfl
    rw [h]
    decide
  · have h := (c7_broadcast_best_effort s7 "d" OutMsg.lock).2.2.2.1 0 cFail rfl
    rw [h]
    decide

/-- Claim C9: closing a session that never registered only signals
end-of-stream on that session's adapter stream; the presence registry,
the lock registry, and every outbox are untouched and no broadcast is
emitted. -/
theorem c9_unregistered_close (s : ServerState) (cid : Nat) (c : Client)
    (hc : s.clients[cid]? = some c) (hm : c.userMeta = none) :
    handleClose s cid =
      { s with clients :=
          modifyAt (fun c0 => { c0 with eosCount := c0.eosCount + 1 }) s.clients cid } := by
  unfold handleClose
  simp only [hc, hm]

/-- Witness for C9 on a concrete state: only the end-of-stream counter
moves. -/
theorem c9_unregistered_close_witness :
    handleClose s9 0 = { s9 with clients := [{ cAnon with eosCount := 1 }] } := by
  have h := c9_unregistered_close s9 0 cAnon rfl rfl
  rw [h]
  decide

theorem handleParsed_reg (s : ServerState) (cid : Nat) (j : JMsg)
    (hj : j.registration = true) :
    handleParsed s cid j =
      (if isLocked s j.docId
       then { s with docs := registerP s.docs j,
                     clients := modifyAt (fun c0 => trySend c0 OutMsg.lock)
                       (broadcastClients j.docId
                         (OutMsg.meta (alookup (registerP s.docs j) j.docId))
                         (modifyAt (fun c0 => { c0 with userMeta := some j }) s.clients cid)) cid }
       else { s with docs := registerP s.docs j,
                     clients := broadcastClients j.docId
                       (OutMsg.meta (alookup (registerP s.docs j) j.docId))
                       (modifyAt (fun c0 => { c0 with userMeta := some j }) s.clients cid) }) := by
  unfold handleParsed
  rw [hj]
  rfl

theorem handleParsed_reg_docs (s : ServerState) (cid : Nat) (j : JMsg)
    (hj : j.registration = true) :
    (handleParsed s cid j).docs = registerP s.docs j := by
  rw [handleParsed_reg s cid j hj]
  cases hlk : isLocked s j.docId <;> simp [hlk]

theorem handleParsed_reg_locked (s : ServerState) (cid : Nat) (j : JMsg)
    (hj : j.registration = true) :
    (handleParsed s cid j).locked = s.locked := by
  rw [handleParsed_reg s cid j hj]
  cases hlk : isLocked s j.docId <;> simp [hlk]

theorem handleParsed_reg_self (s : ServerState) (cid : Nat) (c : Client) (j : JMsg)
    (hc : s.clients[cid]? = some c) (hj : j.registration = true) :
    (handleParsed s cid j).clients[cid]? =
      some { c with
              userMeta := some j,
              outbox := c.outbox
                ++ (if c.sendOk
                    then [OutMsg.meta (alookup (registerP s.docs j) j.docId)] else [])
                ++ (if isLocked s j.docId && c.sendOk then [OutMsg.lock] else []) } := by
  rw [handleParsed_reg s cid j hj]
  cases hlk : isLocked s j.docId <;>
    cases hsend : c.sendOk <;>
      simp [hlk, modifyAt_getElem?, broadcastClients_getElem?, hc,
        deliver, trySend, matchesDoc, hsend]

theorem handleParsed_reg_other (s : ServerState) (cid : Nat) (j : JMsg)
    (i : Nat) (ci : Client) (hj : j.registration = true) (hne : i ≠ cid)
    (hci : s.clients[i]? = some ci) :
    (handleParsed s cid j).clients[i]? =
      some (deliver j.docId (OutMsg.meta (alookup (registerP s.docs j) j.docId)) ci) := by
  rw [handleParsed_reg s cid j hj]
  cases hlk : isLocked s j.docId <;>
    simp [hlk, modifyAt_getElem?, broadcastClients_getElem?, hne, hci]

theorem handleMessage_unregistered_json (s : ServerState) (cid : Nat) (c : Client)
    (j : JMsg) (hc : s.clients[cid]? = some c) (hm : c.userMeta = none) :
    handleMessage s cid (RawMsg.json j) = HandlerResult.ok (handleParsed s cid j) := by
  unfold handleMessage
  simp only [hc, hm]
  rfl

theorem handleMessage_registered_unlocked_json (s : ServerState) (cid : Nat) (c : Client)
    (m1 j : JMsg) (hc : s.clients[cid]? = some c) (hm : c.userMeta = some m1)
    (hlk : isLocked s m1.docId = false) :
    handleMessage s cid (RawMsg.json j) = HandlerResult.ok (handleParsed s cid j) := by
  unfold handleMessage
  simp only [hc, hm, hlk]
  rfl

/-- Counterexample to C5 as stated: registering on a locked document
sends the direct lock notice after the presence broadcast, not before
it — the registering session's outbox ends up `[meta, lock]` whereas
the claimed order would produce `[lock, meta]`. -/
theorem c5_registration_order_counterexample :
    (resState (handleMessage s5 0 (RawMsg.json jregD))).clients.map Client.outbox
      = [[OutMsg.meta (some [("u1", recA)]), OutMsg.lock]]
    ∧ [OutMsg.meta (some [("u1", recA)]), OutMsg.lock]
      ≠ [OutMsg.lock, OutMsg.meta (some [("u1", recA)])] := by
  constructor
  · decide
  · decide

/-- Claim C5 (amended): on the first inbound registration message the
controller extracts the ids, registers the user in the presence
registry, attaches the metadata, broadcasts the returned presence
snapshot `{type:'meta', users: ...}` to the document, and only then, if
the lock registry reports the document locked, sends the direct
`{type:'lock'}` notice to this session alone (the lock registry itself
is untouched). -/
theorem c5_registration_flow (s : ServerState) (cid : Nat) (c : Client) (j : JMsg)
    (hc : s.clients[cid]? = some c) (hm : c.userMeta = none)
    (hj : j.registration = true) :
    isOk (handleMessage s cid (RawMsg.json j)) = true
  ∧ (resState (handleMessage s cid (RawMsg.json j))).docs = registerP s.docs j
  ∧ (resState (handleMessage s cid (RawMsg.json j))).locked = s.locked
  ∧ (resState (handleMessage s cid (RawMsg.json j))).clients[cid]? =
      some { c with
              userMeta := some j,
              outbox := c.outbox
                ++ (if c.sendOk
                    then [OutMsg.meta (alookup (registerP s.docs j) j.docId)] else [])
                ++ (if isLocked s j.docId && c.sendOk then [OutMsg.lock] else []) }
  ∧ (∀ (i : Nat) (ci : Client), i ≠ cid → s.clients[i]? = some ci →
      (resState (handleMessage s cid (RawMsg.json j))).clients[i]? =
        some (deliver j.docId (OutMsg.meta (alookup (registerP s.docs j) j.docId)) ci)) := by
  have hres := handleMessage_unregistered_json s cid c j hc hm
  rw [hres]
  refine ⟨rfl, handleParsed_reg_docs s cid j hj, handleParsed_reg_locked s cid j hj,
    handleParsed_reg_self s cid c j hc hj, ?_⟩
  intro i ci hne hci
  exact handleParsed_reg_other s cid j i ci hj hne hci

/-- Witness for the amended C5: on the concrete locked state the
registering session's outbox is the meta broadcast followed by the
direct lock notice. -/
theorem c5_registration_flow_witness :
    (resState (handleMessage s5 0 (RawMsg.json jregD))).clients[0]? =
      some { cAnon with
              userMeta := some jregD,
              outbox := [OutMsg.meta (some [("u1", recA)]), OutMsg.lock] } := by
  have h := (c5_registration_flow s5 0 cAnon jregD rfl rfl rfl).2.2.2.1
  rw [h]
  decide

/-- Counterexample to C6 as stated: running the close handler a second
time on the same session is not a no-op — it broadcasts the presence
snapshot again, so the state after two runs differs from the state
after one. -/
theorem c6_close_not_idempotent_counterexample :
    handleClose (handleClose s6 0) 0 ≠ handleClose s6 0 := by
  decide

/-- Claim C6 (amended): close handling is not idempotent.  A second run
of the close handler on an already-closed session whose presence record
is already gone leaves the presence and lock registries unchanged (only
because the record is absent), but it broadcasts the `{type:'meta'}`
snapshot to the document again and signals end-of-stream again; the
handler never detaches `userMeta`. -/
theorem c6_second_close (s : ServerState) (cid : Nat) (c : Client) (jm : JMsg)
    (hc : s.clients[cid]? = some c) (hm : c.userMeta = some jm)
    (habs : lookup2 s.docs jm.docId jm.userId = none) :
    handleClose s cid =
      { s with clients := modifyAt (fun c0 => { c0 with eosCount := c0.eosCount + 1 })
                            (broadcastClients jm.docId
                              (OutMsg.meta (alookup s.docs jm.docId)) s.clients) cid } := by
  unfold handleClose
  simp only [hc, hm]
  rw [releaseP_absent s.docs jm.docId jm.userId habs]
  rfl

/-- Witness for the amended C6: the second close of the first session
leaves the registries alone but re-broadcasts the meta snapshot, so the
surviving client has received it twice. -/
theorem c6_second_close_witness :
    (handleClose s6once 0).docs = s6once.docs
    ∧ (handleClose s6once 0).clients.map Client.outbox
        = [[OutMsg.meta (some [("u1", recA)]), OutMsg.meta (some [("u1", recA)])],
           [OutMsg.meta (some [("u1", recA)]), OutMsg.meta (some [("u1", recA)])]]
    ∧ (handleClose s6once 0).clients.map Client.eosCount = [2, 0] := by
  have h := c6_second_close s6once 0
      { cReg0 with outbox := [OutMsg.meta (some [("u1", recA)])], eosCount := 1 } jreg0
      (by decide) (by decide) (by decide)
  rw [h]
  decide

theorem lookup2_registerP_self (docs : Registry) (j : JMsg) :
    lookup2 (registerP docs j) j.docId j.userId =
      some (match lookup2 docs j.docId j.userId with
        | none => { name := j.userName, url := j.userUrl, count := 1,
                    gravatar := j.userGravatar }
        | some r => { r with count := r.count + 1 }) := by
  unfold registerP lookup2
  cases hd : alookup docs j.docId with
  | none =>
    cases hu : alookup ([] : JObj PresenceRecord) j.userId with
    | none => simp [hd, hu, alookup_aset_self]
    | some r => simp [alookup] at hu
  | some m =>
    cases hu : alookup m j.userId with
    | none => simp [hd, hu, alookup_aset_self]
    | some r => simp [hd, hu, alookup_aset_self]

theorem handleClose_docs_registered (s : ServerState) (cid : Nat) (c : Client) (jm : JMsg)
    (hc : s.clients[cid]? = some c) (hm : c.userMeta = some jm) :
    (handleClose s cid).docs = releaseP s.docs jm.docId jm.userId := by
  unfold handleClose
  simp only [hc, hm]
  rfl

/-- Claim C10: a second registration message carrying a different
document id overwrites the session's attached metadata and increments
the new document's presence count, but the previously attached
document's entry is not decremented — neither at re-registration nor
when the session later closes, so the stale record survives. -/
theorem c10_reregistration_leak (s : ServerState) (cid : Nat) (c : Client) (m1 j : JMsg)
    (hc : s.clients[cid]? = some c) (hm : c.userMeta = some m1)
    (hlk : isLocked s m1.docId = false) (hj : j.registration = true)
    (hne : j.docId ≠ m1.docId) :
    (resState (handleMessage s cid (RawMsg.json j))).clients[cid]? =
      some { c with
              userMeta := some j,
              outbox := c.outbox
                ++ (if c.sendOk
                    then [OutMsg.meta (alookup (registerP s.docs j) j.docId)] else [])
                ++ (if isLocked s j.docId && c.sendOk then [OutMsg.lock] else []) }
  ∧ alookup (resState (handleMessage s cid (RawMsg.json j))).docs m1.docId
      = alookup s.docs m1.docId
  ∧ lookup2 (resState (handleMessage s cid (RawMsg.json j))).docs j.docId j.userId
      = some (match lookup2 s.docs j.docId j.userId with
          | none => { name := j.userName, url := j.userUrl, count := 1,
                      gravatar := j.userGravatar }
          | some r => { r with count := r.count + 1 })
  ∧ alookup (handleClose (resState (handleMessage s cid (RawMsg.json j))) cid).docs m1.docId
      = alookup s.docs m1.docId := by
  have hres := handleMessage_registered_unlocked_json s cid c m1 j hc hm hlk
  rw [hres]
  have hdocs := handleParsed_reg_docs s cid j hj
  have hself := handleParsed_reg_self s cid c j hc hj
  have hred : resState (HandlerResult.ok (handleParsed s cid j)) = handleParsed s cid j := rfl
  refine ⟨hself, ?_, ?_, ?_⟩
  · rw [hred, hdocs]
    exact alookup_registerP_ne s.docs j m1.docId (Ne.symm hne)
  · rw [hred, hdocs]
    exact lookup2_registerP_self s.docs j
  · rw [hred]
    have hd2 := handleClose_docs_registered (handleParsed s cid j) cid
      { c with
          userMeta := some j,
          outbox := c.outbox
            ++ (if c.sendOk
                then [OutMsg.meta (alookup (registerP s.docs j) j.docId)] else [])
            ++ (if isLocked s j.docId && c.sendOk then [OutMsg.lock] else []) } j hself rfl
    rw [hd2, hdocs]
    rw [alookup_releaseP_ne (registerP s.docs j) j.docId j.userId m1.docId (Ne.symm hne)]
    exact alookup_registerP_ne s.docs j m1.docId (Ne.symm hne)

/-- Witness for C10: the session on "d" re-registers on "e"; after it
later closes, document "d" still holds user "u1" with count 1. -/
theorem c10_reregistration_leak_witness :
    alookup (handleClose (resState (handleMessage sU 0 (RawMsg.json jregE))) 0).docs "d"
      = alookup sU.docs "d"
    ∧ alookup sU.docs "d" = some [("u1", recA)] := by
  have h := (c10_reregistration_leak sU 0 cReg jregD jregE rfl rfl (by decide) rfl
    (by decide)).2.2.2
  exact ⟨h, by decide⟩

/-- Claim C4 describes the intended behaviour, but the code's catch
block is broken: a non-parseable payload from a registered session on
an unlocked document changes no state, yet instead of logging a
diagnostic the handler raises a `ReferenceError` (it reads the unbound
identifier `message` while building the log payload, and
`client.captureMessage` is not a websocket-client method), so the
exception escapes the message handler. -/
theorem c4_malformed_raises :
    handleMessage s4 0 RawMsg.malformed = HandlerResult.threw s4
    ∧ isOk (handleMessage s4 0 RawMsg.malformed) = false := by
  constructor
  · decide
  · decide

/-- Counterexample to C8 as stated: the write guard in `stream._write`
is `client.state !== 'closed'`, not `state === 'open'`; in the
'connecting' state the record is still sent although the state is not
open. -/
theorem c8_write_counterexample :
    (stream_write "connecting" true "op1").sentPayload = some "op1"
    ∧ "connecting" ≠ "open" := by
  constructor
  · decide
  · decide

/-- Claim C8 (amended): a record written by the engine is serialized and
sent exactly when the connection's state is not 'closed' and the send
succeeds; otherwise it is silently discarded; on every path the write
callback is still invoked and a send failure never propagates (the
function is total). -/
theorem c8_write_amended (connState : String) (sendOk : Bool) (chunk : String) :
    ((stream_write connState sendOk chunk).sentPayload
      = (if connState ≠ "closed" ∧ sendOk = true then some chunk else none))
    ∧ (stream_write connState sendOk chunk).callbackInvoked = true := by
  unfold stream_write
  by_cases hst : connState = "closed"
  · simp [hst]
  · cases sendOk <;> simp [hst]

/-- Witness for the amended C8 at concrete connection states. -/
theorem c8_write_amended_witness :
    (stream_write "open" true "rec1").sentPayload = some "rec1"
    ∧ (stream_write "closed" true "rec1").sentPayload = none
    ∧ (stream_write "open" false "rec1").callbackInvoked = true := by
  refine ⟨?_, ?_, (c8_write_amended "open" false "rec1").2⟩
  · have h := (c8_write_amended "open" true "rec1").1
    rw [h]
    decide
  · have h := (c8_write_amended "closed" true "rec1").1
    rw [h]
    decide
